import Mathlib

/-!
Verification of the cash-flow aggregation service
(`src/cashflow/cashflow_service.py` of the Bill repository).

Python `Decimal` values are embedded as an integer coefficient together
with a decimal scale (`value = m / 10 ^ s`), mirroring CPython's
sign/coefficient/exponent representation restricted to non-positive
exponents (all amounts handled by the service are plain decimal numbers;
positive-exponent literals such as `1E+2` are normalised to scale 0, and
the negative-zero sign of `Decimal` is not tracked — neither distinction
is observable through the operations verified here).  Addition keeps the
finer of the two scales exactly as CPython does for exact results; the
28-significant-digit context rounding of CPython is not modelled, which
is exact for all magnitudes considered.
-/

/-- Coefficient/scale representation of a Python `Decimal`:
the denoted value is `m / 10 ^ s`. -/
structure Decimal where
  m : ℤ
  s : ℕ
deriving DecidableEq

/-- Rational value denoted by a `Decimal`. -/
def Decimal.val (d : Decimal) : ℚ := (d.m : ℚ) / 10 ^ d.s

/-- `Decimal('0')` (coefficient 0, exponent 0). -/
def Decimal.zero : Decimal := ⟨0, 0⟩

/-- Exact `Decimal` addition: the result carries the finer scale. -/
def Decimal.add (a b : Decimal) : Decimal :=
  ⟨a.m * 10 ^ (max a.s b.s - a.s) + b.m * 10 ^ (max a.s b.s - b.s), max a.s b.s⟩

/-- Exact `Decimal` subtraction. -/
def Decimal.sub (a b : Decimal) : Decimal :=
  ⟨a.m * 10 ^ (max a.s b.s - a.s) - b.m * 10 ^ (max a.s b.s - b.s), max a.s b.s⟩

/-- `d > 0` for a `Decimal` (sign of the coefficient). -/
def Decimal.isPos (d : Decimal) : Bool := 0 < d.m

/-- `d < 0` for a `Decimal`. -/
def Decimal.isNeg (d : Decimal) : Bool := d.m < 0

/-- `d == 0` for a `Decimal`. -/
def Decimal.isZero (d : Decimal) : Bool := d.m = 0

/-- Python `x or 0` applied to a nullable `Decimal` column value:
`None` and zero-valued decimals are falsy and replaced by `Decimal(0)`. -/
def orZero : Option Decimal → Decimal
  | none => Decimal.zero
  | some d => if d.m = 0 then Decimal.zero else d

/-- SQL-style `column > 0` filter on a nullable decimal column
(`NULL` compares as false). -/
def optPos : Option Decimal → Bool
  | none => false
  | some d => d.isPos

/-- SQL-style `column == 0` filter on a nullable decimal column. -/
def optEqZero : Option Decimal → Bool
  | none => false
  | some d => d.isZero

/-- Digit character for `d < 10`. -/
def digitChar (d : ℕ) : Char := Char.ofNat (48 + d)

/-- Decimal digits of `n`, least significant first; fuel-structured so the
kernel can evaluate it. -/
def natDigitsAux : ℕ → ℕ → List ℕ
  | 0, _ => []
  | fuel + 1, n => if n = 0 then [] else n % 10 :: natDigitsAux fuel (n / 10)

/-- Decimal rendering of a natural number (most significant digit first),
as Python renders integers. -/
def natDigits (n : ℕ) : List Char :=
  if n = 0 then ['0'] else (natDigitsAux n n).reverse.map digitChar

/-- Numeric value of a run of digit characters (most significant first). -/
def digitsToNat (cs : List Char) : ℕ :=
  cs.foldl (fun a c => a * 10 + (c.toNat - 48)) 0

/-- Two-digit rendering of `r < 100` (the cents part of `f"...:.2f"`). -/
def twoDigitChars (r : ℕ) : List Char := [digitChar (r / 10), digitChar (r % 10)]

/-- Integer number of cents obtained by quantising a `Decimal` to two
fractional digits with `ROUND_HALF_EVEN`, as `f"{d:.2f}"` does. -/
def Decimal.roundCents (d : Decimal) : ℤ :=
  if d.s ≤ 2 then d.m * 10 ^ (2 - d.s)
  else
    let p : ℤ := (10 : ℤ) ^ (d.s - 2)
    let q := d.m / p
    let r := d.m % p
    if 2 * r < p then q else if p < 2 * r then q + 1 else if 2 ∣ q then q else q + 1

/-- Character rendering of a number of cents as a two-decimal string. -/
def renderCentsChars (c : ℤ) : List Char :=
  (if c < 0 then ['-'] else []) ++
    natDigits (c.natAbs / 100) ++ '.' :: twoDigitChars (c.natAbs % 100)

/-- `CashFlowService.format_decimal` on a decimal value:
`f"{Decimal(str(value)):.2f}"`. -/
def format_decimal (d : Decimal) : String :=
  String.mk (renderCentsChars (Decimal.roundCents d))

/-- `str(d)` for a `Decimal` with non-positive exponent (no scientific
notation: the adjusted-exponent-below-minus-six case never arises for the
monetary magnitudes handled here). -/
def decStrChars (d : Decimal) : List Char :=
  (if d.m < 0 then ['-'] else []) ++
    (let ds := natDigits d.m.natAbs
     if d.s = 0 then ds
     else if d.s < ds.length then
       ds.take (ds.length - d.s) ++ '.' :: ds.drop (ds.length - d.s)
     else '0' :: '.' :: (List.replicate (d.s - ds.length) '0' ++ ds))

/-- `str(d)` for a `Decimal`. -/
def Decimal.toStr (d : Decimal) : String := String.mk (decStrChars d)

/-- Sign parsing of a Python decimal literal. -/
def parseSign : List Char → Bool × List Char
  | [] => (false, [])
  | ch :: t =>
    if ch = '-' then (true, t)
    else if ch = '+' then (false, t)
    else (false, ch :: t)

/-- Split a leading run of digit characters. -/
def takeDigits : List Char → List Char × List Char
  | [] => ([], [])
  | ch :: t =>
    if ch.isDigit then
      let p := takeDigits t
      (ch :: p.1, p.2)
    else ([], ch :: t)

/-- Mantissa part of a Python decimal literal: digits with an optional
decimal point; yields the coefficient, the fractional length and the
remaining input. -/
def parseUnsigned (cs : List Char) : Option (ℕ × ℕ × List Char) :=
  let p := takeDigits cs
  match p.2 with
  | '.' :: rest2 =>
    let q := takeDigits rest2
    if p.1.isEmpty && q.1.isEmpty then none
    else some (digitsToNat (p.1 ++ q.1), q.1.length, q.2)
  | _ => if p.1.isEmpty then none else some (digitsToNat p.1, 0, p.2)

/-- Exponent part of a Python decimal literal (must consume the rest of
the input). -/
def parseExpPart : List Char → Option ℤ
  | [] => some 0
  | ch :: t =>
    if ch = 'e' ∨ ch = 'E' then
      let sp := parseSign t
      let dp := takeDigits sp.2
      if dp.1.isEmpty ∨ ¬ dp.2.isEmpty then none
      else some (if sp.1 then -(digitsToNat dp.1 : ℤ) else (digitsToNat dp.1 : ℤ))
    else none

/-- `Decimal(s)` on a character list: sign, mantissa, optional exponent.
`None` models the `InvalidOperation` raised on a malformed literal.
(Leading/trailing whitespace, underscores and the `NaN`/`Infinity`
specials accepted by CPython are not modelled; none of them can reach
this constructor from the service's own output strings.) -/
def parseDecimalChars (cs : List Char) : Option Decimal :=
  match parseSign cs with
  | (neg, cs1) =>
    match parseUnsigned cs1 with
    | none => none
    | some (m0, s0, rest) =>
      match parseExpPart rest with
      | none => none
      | some e =>
        let m1 : ℤ := if neg then -(m0 : ℤ) else (m0 : ℤ)
        let ee : ℤ := e - (s0 : ℤ)
        if 0 ≤ ee then some ⟨m1 * 10 ^ ee.toNat, 0⟩ else some ⟨m1, (-ee).toNat⟩

/-- `Decimal(s)` on a string. -/
def parseDecimal (s : String) : Option Decimal := parseDecimalChars s.data

/-- `format_decimal` applied to a string argument
(`Decimal(str(value))` re-parses it; `none` models the raised
`InvalidOperation`). -/
def formatDecimalStr (s : String) : Option String :=
  (parseDecimal s).map format_decimal


/-!
Data model.  The service reads fully materialised joined rows from the
data-access layer (SQLAlchemy); each query's base joined table is a field
of `DB`, and the service applies the query's `filter`/`order_by` to it.
Timestamps are embedded as integers (`isoformat` ordering is the
timestamp ordering, and the emitted date value is carried unchanged).
-/

/-- JSON values, as produced by `json.loads` (numbers are carried as the
decimal value CPython's `Decimal` constructor receives from them). -/
inductive Json where
  | null
  | bool (b : Bool)
  | num (d : Decimal)
  | str (s : String)
  | arr (xs : List Json)
  | obj (kvs : List (String × Json))

/-- A `Customer` row (display fields used by the service). -/
structure Customer where
  id : ℕ := 0
  contact_person : String := ""
  business_name : String := ""
deriving DecidableEq

/-- A `Product` row. -/
structure Product where
  id : ℕ := 0
  product_name : String := ""
deriving DecidableEq

/-- A `Supplier` row. -/
structure Supplier where
  id : ℕ := 0
  contact_person : String := ""
  name : String := ""
deriving DecidableEq

/-- A `Payment` row. -/
structure Payment where
  id : ℕ := 0
  invoice_id : ℕ := 0
  customer_id : ℕ := 0
  amount_paid : Option Decimal := none
  payment_method : Option String := none
  payment_date : ℤ := 0
  transaction_reference : Option String := none
  payment_status : String := ""
deriving DecidableEq

/-- A `ProductReturn` row. -/
structure ProductReturn where
  id : ℕ := 0
  return_number : String := ""
  customer_id : ℕ := 0
  product_id : ℕ := 0
  return_type : String := ""
  refund_amount : Option Decimal := none
  exchange_price_difference : Option Decimal := none
  status : String := ""
  reason : String := ""
  quantity_returned : ℕ := 0
  exchange_product : Option Product := none
  return_date : ℤ := 0
  original_invoice_id : ℕ := 0
deriving DecidableEq

/-- A `StockTransaction` row.  The free-form `notes` string is embedded
by its `json.loads` outcome: `none` for a `NULL`/empty (falsy) column,
`some (.error ())` for text that raises `JSONDecodeError`, and
`some (.ok j)` for text parsing to the JSON value `j`. -/
structure StockTransaction where
  id : ℕ := 0
  supplier_id : ℕ := 0
  product_id : ℕ := 0
  transaction_type : String := ""
  quantity : ℕ := 0
  transaction_date : ℤ := 0
  reference_number : String := ""
  notes : Option (Except Unit Json) := none

/-- A `SupplierReturn` row. -/
structure SupplierReturn where
  id : ℕ := 0
  return_number : String := ""
  supplier_id : ℕ := 0
  damaged_product_id : ℕ := 0
  refund_amount : Option Decimal := none
  return_type : String := ""
  status : String := ""
  quantity_returned : ℕ := 0
  return_date : ℤ := 0
deriving DecidableEq

/-- A `DamagedProduct` row (link from a supplier return to a product). -/
structure DamagedProduct where
  id : ℕ := 0
  product_id : ℕ := 0
deriving DecidableEq

/-- Database state visible to the service.  `supplierReturnsQuery` is
`.error` when the supplier-returns subsystem raises on import or query
(the feature being unavailable), which is the failure the service
swallows. -/
structure DB where
  paymentsJoined : List (Payment × Customer) := []
  returnsJoined : List (ProductReturn × Customer × Product) := []
  purchasesJoined : List (StockTransaction × Supplier) := []
  supplierReturnsQuery : Except Unit (List (SupplierReturn × Supplier)) := .ok []
  damagedProducts : List DamagedProduct := []
  products : List Product := []

/-- Insert into a list sorted by `key` descending (larger keys first). -/
def insertDesc (key : α → ℤ) (x : α) : List α → List α
  | [] => [x]
  | y :: ys => if key y < key x then x :: y :: ys else y :: insertDesc key x ys

/-- `ORDER BY key DESC`: most recent (largest key) first. -/
def sortDesc (key : α → ℤ) : List α → List α
  | [] => []
  | x :: xs => insertDesc key x (sortDesc key xs)

/-- Uncaught Python exception classes relevant to the service
(`decimal.InvalidOperation` is an `ArithmeticError`, and neither it nor
`TypeError`/`AttributeError` is matched by the service's
`except (json.JSONDecodeError, ValueError)` clause). -/
inductive PyErr where
  | invalidOperation
  | typeError
  | attributeError
deriving DecidableEq

/-!  get_customer_payments  -/

/-- Filter of the regular-payments query:
`payment_status IN ('Successful', 'Partially Paid') AND amount_paid > 0`. -/
def paymentFilter (p : Payment) : Bool :=
  (p.payment_status == "Successful" || p.payment_status == "Partially Paid")
    && optPos p.amount_paid

/-- Filter of the adjustment-payments query:
`return_type == 'exchange' AND exchange_price_difference > 0 AND refund_amount == 0`. -/
def adjFilter (r : ProductReturn) : Bool :=
  r.return_type == "exchange" && optPos r.exchange_price_difference
    && optEqZero r.refund_amount

/-- Regular-payment rows: filtered and ordered by payment date descending. -/
def regularRows (db : DB) : List (Payment × Customer) :=
  sortDesc (fun pc => pc.1.payment_date)
    (db.paymentsJoined.filter (fun pc => paymentFilter pc.1))

/-- Adjustment rows: filtered and ordered by return date descending. -/
def adjRows (db : DB) : List (ProductReturn × Customer × Product) :=
  sortDesc (fun t => t.1.return_date)
    (db.returnsJoined.filter (fun t => adjFilter t.1))

/-- One line item of the customer-payments report.  The heterogeneous
`payment_id` (integer for regular rows, `"ADJ-<id>"` for adjustments) is
embedded as its decimal rendering; the `payment_date` ISO string is
embedded as the underlying timestamp. -/
structure CustomerPaymentItem where
  payment_id : String
  invoice_id : ℕ
  customer_id : ℕ
  customer_name : String
  business_name : String
  amount_paid : String
  payment_method : Option String
  payment_date : ℤ
  transaction_reference : Option String
  payment_type : String
  status : String
  adjustment_details : Option String
deriving DecidableEq

/-- Amount accumulated for a regular payment row:
`Decimal(payment.amount_paid or 0)`. -/
def regularAmount (p : Payment) : Decimal := orZero p.amount_paid

/-- Amount accumulated for an adjustment row:
`Decimal(adjustment.exchange_price_difference or 0)`. -/
def adjAmount (r : ProductReturn) : Decimal := orZero r.exchange_price_difference

/-- Line item built from a regular payment row. -/
def mkRegularItem (pc : Payment × Customer) : CustomerPaymentItem :=
  { payment_id := String.mk (natDigits pc.1.id)
    invoice_id := pc.1.invoice_id
    customer_id := pc.2.id
    customer_name := pc.2.contact_person
    business_name := pc.2.business_name
    amount_paid := format_decimal (regularAmount pc.1)
    payment_method := pc.1.payment_method
    payment_date := pc.1.payment_date
    transaction_reference := pc.1.transaction_reference
    payment_type := "regular_payment"
    status := pc.1.payment_status
    adjustment_details := none }

/-- Line item built from an adjustment row. -/
def mkAdjItem (t : ProductReturn × Customer × Product) : CustomerPaymentItem :=
  { payment_id := "ADJ-" ++ String.mk (natDigits t.1.id)
    invoice_id := t.1.original_invoice_id
    customer_id := t.2.1.id
    customer_name := t.2.1.contact_person
    business_name := t.2.1.business_name
    amount_paid := format_decimal (adjAmount t.1)
    payment_method := some "adjustment"
    payment_date := t.1.return_date
    transaction_reference := some t.1.return_number
    payment_type := "adjustment_payment"
    status := "Completed"
    adjustment_details := some ("Customer pays extra for exchange: "
      ++ t.2.2.product_name ++ " -> "
      ++ (match t.1.exchange_product with
          | some ep => ep.product_name
          | none => "N/A")) }

/-- Result shape of `get_customer_payments`. -/
structure CustomerPaymentsResult where
  customer_payments : List CustomerPaymentItem
  total_received : String
  count : ℕ
deriving DecidableEq

/-- The two accumulation loops of `get_customer_payments`: items are
appended and `total_received += amount` runs row by row. -/
def customerPaymentsPair (db : DB) : List CustomerPaymentItem × Decimal :=
  (adjRows db).foldl
    (fun acc t => (acc.1 ++ [mkAdjItem t], acc.2.add (adjAmount t.1)))
    ((regularRows db).foldl
      (fun acc pc => (acc.1 ++ [mkRegularItem pc], acc.2.add (regularAmount pc.1)))
      ([], Decimal.zero))

/-- Raw (pre-formatting) accumulated total of `get_customer_payments`. -/
def customerPaymentsTotalRaw (db : DB) : Decimal := (customerPaymentsPair db).2

/-- `CashFlowService.get_customer_payments`. -/
def get_customer_payments (db : DB) : CustomerPaymentsResult :=
  { customer_payments := (customerPaymentsPair db).1
    total_received := format_decimal (customerPaymentsPair db).2
    count := (customerPaymentsPair db).1.length }

/-!  get_customer_refunds  -/

/-- Filter of the refunds query:
`refund_amount > 0 AND status IN ('Pending', 'Processed', 'Completed')`. -/
def refundFilter (r : ProductReturn) : Bool :=
  optPos r.refund_amount
    && (r.status == "Pending" || r.status == "Processed" || r.status == "Completed")

/-- Refund rows: filtered and ordered by return date descending. -/
def customerRefundRows (db : DB) : List (ProductReturn × Customer × Product) :=
  sortDesc (fun t => t.1.return_date)
    (db.returnsJoined.filter (fun t => refundFilter t.1))

/-- One line item of the customer-refunds report. -/
structure CustomerRefundItem where
  return_id : ℕ
  return_number : String
  customer_id : ℕ
  customer_name : String
  business_name : String
  product_name : String
  refund_amount : String
  refund_type : String
  reason : String
  return_date : ℤ
  quantity_returned : ℕ
  exchange_product : Option String
deriving DecidableEq

/-- Amount accumulated for a refund row: `Decimal(refund.refund_amount or 0)`. -/
def refundAmount (r : ProductReturn) : Decimal := orZero r.refund_amount

/-- Line item built from a refund row; `exchange` rows are reclassified
as `adjustment_refund` with a synthesised reason. -/
def mkRefundItem (t : ProductReturn × Customer × Product) : CustomerRefundItem :=
  { return_id := t.1.id
    return_number := t.1.return_number
    customer_id := t.2.1.id
    customer_name := t.2.1.contact_person
    business_name := t.2.1.business_name
    product_name := t.2.2.product_name
    refund_amount := format_decimal (refundAmount t.1)
    refund_type := if t.1.return_type == "exchange" then "adjustment_refund" else t.1.return_type
    reason := if t.1.return_type == "exchange" then
        "Adjustment - We pay customer extra amount for product exchange"
      else t.1.reason
    return_date := t.1.return_date
    quantity_returned := t.1.quantity_returned
    exchange_product := t.1.exchange_product.map (fun p => p.product_name) }

/-- Result shape of `get_customer_refunds`. -/
structure CustomerRefundsResult where
  customer_refunds : List CustomerRefundItem
  total_refunded : String
  count : ℕ
deriving DecidableEq

/-- The accumulation loop of `get_customer_refunds`. -/
def customerRefundsPair (db : DB) : List CustomerRefundItem × Decimal :=
  (customerRefundRows db).foldl
    (fun acc t => (acc.1 ++ [mkRefundItem t], acc.2.add (refundAmount t.1)))
    ([], Decimal.zero)

/-- Raw (pre-formatting) accumulated total of `get_customer_refunds`. -/
def customerRefundsTotalRaw (db : DB) : Decimal := (customerRefundsPair db).2

/-- `CashFlowService.get_customer_refunds`. -/
def get_customer_refunds (db : DB) : CustomerRefundsResult :=
  { customer_refunds := (customerRefundsPair db).1
    total_refunded := format_decimal (customerRefundsPair db).2
    count := (customerRefundsPair db).1.length }

/-!  get_supplier_payments  -/

/-- First-match association lookup in a parsed JSON object
(duplicate keys cannot arise from `json.loads`). -/
def jsonLookup : List (String × Json) → String → Option Json
  | [], _ => none
  | (k, v) :: t, key => if k == key then some v else jsonLookup t key

/-- `payment_info.get(key, dflt)` on a parsed JSON object. -/
def pyGet (kvs : List (String × Json)) (key : String) (dflt : Json) : Json :=
  (jsonLookup kvs key).getD dflt

/-- Python truthiness of a JSON value. -/
def pyTruthy : Json → Bool
  | .null => false
  | .bool b => b
  | .num d => !(d.m = 0)
  | .str s => !s.isEmpty
  | .arr xs => !xs.isEmpty
  | .obj kvs => !kvs.isEmpty

/-- `Decimal(x)` on a value extracted from parsed JSON: strings are
re-parsed (raising `InvalidOperation` when malformed), numbers and
booleans are numeric, everything else raises `TypeError`.  None of these
exceptions is a `ValueError`, so the service's
`except (json.JSONDecodeError, ValueError)` clause does not catch them. -/
def decimalOfJson : Json → Except PyErr Decimal
  | .str s =>
    match parseDecimal s with
    | some d => .ok d
    | none => .error .invalidOperation
  | .num d => .ok d
  | .bool b => .ok (if b then ⟨1, 0⟩ else ⟨0, 0⟩)
  | _ => .error .typeError

/-- Payment fields extracted from a `StockTransaction.notes` blob, with
the loop's initial defaults. -/
structure NoteInfo where
  payment_amount : Decimal := Decimal.zero
  payment_method : Json := Json.null
  payment_status : Json := Json.null
  transaction_reference : Json := Json.null
  products_info : Json := Json.arr []

/-- The note-extraction block of `get_supplier_payments`: a falsy or
syntactically malformed (`JSONDecodeError`) blob is caught and leaves the
defaults in place; a blob that parses to a non-object raises
`AttributeError` at `payment_info.get`, and a `payment_amount` value that
`Decimal` rejects raises an uncaught `InvalidOperation`/`TypeError`. -/
def extractNote : Option (Except Unit Json) → Except PyErr NoteInfo
  | none => .ok {}
  | some (.error _) => .ok {}
  | some (.ok (Json.obj kvs)) =>
    match decimalOfJson (pyGet kvs "payment_amount" (Json.str "0")) with
    | .error e => .error e
    | .ok amt =>
      .ok { payment_amount := amt
            payment_method := pyGet kvs "payment_method" Json.null
            payment_status := pyGet kvs "payment_status" Json.null
            transaction_reference := pyGet kvs "transaction_reference" Json.null
            products_info := pyGet kvs "products" (Json.arr []) }
  | some (.ok _) => .error .attributeError

/-- `p.get('name', '')` on one element of the embedded product list
(non-objects raise `AttributeError`). -/
def elemName : Json → Except PyErr Json
  | .obj kvs => .ok (pyGet kvs "name" (Json.str ""))
  | _ => .error .attributeError

/-- Evaluate `elemName` across a product list, stopping at the first
raised exception. -/
def elemNames : List Json → Except PyErr (List Json)
  | [] => .ok []
  | x :: xs =>
    match elemName x with
    | .error e => .error e
    | .ok n =>
      match elemNames xs with
      | .error e => .error e
      | .ok ns => .ok (n :: ns)

/-- `Product.query.get(product_id)`. -/
def productById (db : DB) (pid : ℕ) : Option Product :=
  db.products.find? (fun p => p.id == pid)

/-- Product display names for one included transaction: the embedded
line-item list when truthy (iterating a truthy non-list raises), else a
single lookup by the transaction's product reference. -/
def productNames (db : DB) (ts : StockTransaction × Supplier) (info : NoteInfo) :
    Except PyErr (List Json) :=
  if pyTruthy info.products_info then
    match info.products_info with
    | .arr xs => elemNames xs
    | .str _ => .error .attributeError
    | .obj _ => .error .attributeError
    | _ => .error .typeError
  else
    match productById db ts.1.product_id with
    | some p => .ok [Json.str p.product_name]
    | none => .ok []

/-- One line item of the supplier-payments report. -/
structure SupplierPaymentItem where
  transaction_id : ℕ
  supplier_id : ℕ
  supplier_name : String
  business_name : String
  products : List Json
  quantity : ℕ
  amount_paid : String
  payment_method : Json
  payment_status : Json
  transaction_date : ℤ
  reference_number : String
  transaction_reference : Json

/-- Result shape of `get_supplier_payments`. -/
structure SupplierPaymentsResult where
  supplier_payments : List SupplierPaymentItem
  total_paid : String
  count : ℕ

/-- Line item built from an included purchase transaction. -/
def mkSupplierItem (ts : StockTransaction × Supplier) (info : NoteInfo)
    (names : List Json) : SupplierPaymentItem :=
  { transaction_id := ts.1.id
    supplier_id := ts.2.id
    supplier_name := ts.2.contact_person
    business_name := ts.2.name
    products := names
    quantity := ts.1.quantity
    amount_paid := info.payment_amount.toStr
    payment_method := info.payment_method
    payment_status := info.payment_status
    transaction_date := ts.1.transaction_date
    reference_number := ts.1.reference_number
    transaction_reference := info.transaction_reference }

/-- Processing of one purchase transaction: extract the note, and when a
positive payment was extracted produce the item and its contribution. -/
def processTx (db : DB) (ts : StockTransaction × Supplier) :
    Except PyErr (Option (SupplierPaymentItem × Decimal)) :=
  match extractNote ts.1.notes with
  | .error e => .error e
  | .ok info =>
    if info.payment_amount.isPos then
      match productNames db ts info with
      | .error e => .error e
      | .ok names => .ok (some (mkSupplierItem ts info names, info.payment_amount))
    else .ok none

/-- Purchase rows: `transaction_type == 'Purchase'`, ordered by
transaction date descending. -/
def purchaseRows (db : DB) : List (StockTransaction × Supplier) :=
  sortDesc (fun ts => ts.1.transaction_date)
    (db.purchasesJoined.filter (fun ts => ts.1.transaction_type == "Purchase"))

/-- The accumulation loop of `get_supplier_payments`; an uncaught
per-row exception aborts the whole loop. -/
def supplierPaymentsGo (db : DB) :
    List (StockTransaction × Supplier) → List SupplierPaymentItem × Decimal →
      Except PyErr (List SupplierPaymentItem × Decimal)
  | [], acc => .ok acc
  | r :: rs, acc =>
    match processTx db r with
    | .error e => .error e
    | .ok none => supplierPaymentsGo db rs acc
    | .ok (some (it, amt)) => supplierPaymentsGo db rs (acc.1 ++ [it], acc.2.add amt)

/-- `CashFlowService.get_supplier_payments`; `.error` models the
re-raised wrapped exception. -/
def get_supplier_payments (db : DB) : Except PyErr SupplierPaymentsResult :=
  match supplierPaymentsGo db (purchaseRows db) ([], Decimal.zero) with
  | .error e => .error e
  | .ok acc =>
    .ok { supplier_payments := acc.1
          total_paid := acc.2.toStr
          count := acc.1.length }

/-!  get_supplier_receipts  -/

/-- One line item of the supplier-receipts report. -/
structure SupplierReceiptItem where
  return_id : ℕ
  return_number : String
  supplier_id : ℕ
  supplier_name : String
  business_name : String
  product_name : String
  refund_amount : String
  return_type : String
  return_date : ℤ
  quantity_returned : ℕ
  status : String
deriving DecidableEq

/-- Result shape of `get_supplier_receipts`. -/
structure SupplierReceiptsResult where
  supplier_receipts : List SupplierReceiptItem
  total_received : String
  count : ℕ
deriving DecidableEq

/-- Amount accumulated for a supplier-return row. -/
def receiptAmount (r : SupplierReturn) : Decimal := orZero r.refund_amount

/-- Line item built from a supplier-return row; the product name is
resolved through the damaged-product link with an `Unknown Product`
placeholder. -/
def mkReceiptItem (db : DB) (rs : SupplierReturn × Supplier) : SupplierReceiptItem :=
  { return_id := rs.1.id
    return_number := rs.1.return_number
    supplier_id := rs.2.id
    supplier_name := rs.2.contact_person
    business_name := rs.2.name
    product_name :=
      (match db.damagedProducts.find? (fun dp => dp.id == rs.1.damaged_product_id) with
       | some dp =>
         match productById db dp.product_id with
         | some p => p.product_name
         | none => "Unknown Product"
       | none => "Unknown Product")
    refund_amount := (receiptAmount rs.1).toStr
    return_type := rs.1.return_type
    return_date := rs.1.return_date
    quantity_returned := rs.1.quantity_returned
    status := rs.1.status }

/-- Supplier-return rows of a successful query:
`refund_amount > 0 AND status == 'Completed'`, date descending. -/
def supplierReceiptRows (rows : List (SupplierReturn × Supplier)) :
    List (SupplierReturn × Supplier) :=
  sortDesc (fun rs => rs.1.return_date)
    (rows.filter (fun rs => optPos rs.1.refund_amount && rs.1.status == "Completed"))

/-- `CashFlowService.get_supplier_receipts`: any failure raised while
querying the supplier-returns subsystem is caught and converted into the
empty zero-totalled result. -/
def get_supplier_receipts (db : DB) : SupplierReceiptsResult :=
  match db.supplierReturnsQuery with
  | .error _ => { supplier_receipts := [], total_received := "0.00", count := 0 }
  | .ok rows =>
    let acc := (supplierReceiptRows rows).foldl
      (fun acc rs => (acc.1 ++ [mkReceiptItem db rs], acc.2.add (receiptAmount rs.1)))
      ([], Decimal.zero)
    { supplier_receipts := acc.1
      total_received := acc.2.toStr
      count := acc.1.length }

/-!  get_cashflow_summary  -/

/-- Amount/count/transaction-list block of the detailed breakdown. -/
structure TxnBlock (α : Type) where
  amount : String
  count : ℕ
  transactions : List α

/-- `cash_inflow` block. -/
structure CashInflowBlock where
  customer_payments : String
  supplier_refunds : String
  total_inflow : String
deriving DecidableEq

/-- `cash_outflow` block. -/
structure CashOutflowBlock where
  customer_refunds : String
  supplier_payments : String
  total_outflow : String
deriving DecidableEq

/-- `detailed_breakdown.customer_transactions` block. -/
structure CustomerTransactionsBlock where
  payments_received : TxnBlock CustomerPaymentItem
  refunds_given : TxnBlock CustomerRefundItem

/-- `detailed_breakdown.supplier_transactions` block. -/
structure SupplierTransactionsBlock where
  payments_made : TxnBlock SupplierPaymentItem
  refunds_received : TxnBlock SupplierReceiptItem

/-- `detailed_breakdown` block. -/
structure DetailedBreakdown where
  customer_transactions : CustomerTransactionsBlock
  supplier_transactions : SupplierTransactionsBlock

/-- Trailing `summary` block. -/
structure SummaryBlock where
  total_customer_transactions : ℕ
  total_supplier_transactions : ℕ
  cash_position : String
deriving DecidableEq

/-- Result shape of `get_cashflow_summary`. -/
structure CashflowSummary where
  cash_inflow : CashInflowBlock
  cash_outflow : CashOutflowBlock
  net_cashflow : String
  detailed_breakdown : DetailedBreakdown
  summary : SummaryBlock

/-- The supplier-receipts accumulation loop on a successfully queried
row set. -/
def supplierReceiptsPair (db : DB) (rows : List (SupplierReturn × Supplier)) :
    List SupplierReceiptItem × Decimal :=
  (supplierReceiptRows rows).foldl
    (fun acc rs => (acc.1 ++ [mkReceiptItem db rs], acc.2.add (receiptAmount rs.1)))
    ([], Decimal.zero)

/-- The result record assembled by `get_cashflow_summary` from the four
base results and the re-parsed totals `a` (customer payments), `b`
(supplier receipts), `c` (customer refunds) and `d` (supplier payments). -/
def mkSummary (db : DB) (sp : SupplierPaymentsResult) (a b c d : Decimal) :
    CashflowSummary :=
  let cp := get_customer_payments db
  let sr := get_supplier_receipts db
  let cr := get_customer_refunds db
  let total_inflow := a.add b
  let total_outflow := c.add d
  let net := total_inflow.sub total_outflow
  { cash_inflow :=
      { customer_payments := format_decimal a
        supplier_refunds := format_decimal b
        total_inflow := format_decimal total_inflow }
    cash_outflow :=
      { customer_refunds := format_decimal c
        supplier_payments := format_decimal d
        total_outflow := format_decimal total_outflow }
    net_cashflow := format_decimal net
    detailed_breakdown :=
      { customer_transactions :=
          { payments_received :=
              { amount := format_decimal a
                count := cp.count
                transactions := cp.customer_payments }
            refunds_given :=
              { amount := format_decimal c
                count := cr.count
                transactions := cr.customer_refunds } }
        supplier_transactions :=
          { payments_made :=
              { amount := format_decimal d
                count := sp.count
                transactions := sp.supplier_payments }
            refunds_received :=
              { amount := format_decimal b
                count := sr.count
                transactions := sr.supplier_receipts } } }
    summary :=
      { total_customer_transactions := cp.count + cr.count
        total_supplier_transactions := sp.count + sr.count
        cash_position :=
          if net.isPos then "Positive"
          else if net.isNeg then "Negative"
          else "Neutral" } }

/-- `CashFlowService.get_cashflow_summary`: re-invokes the four base
operations once each, re-parses their total strings with `Decimal`, sums
inflows and outflows, takes the exact difference, and classifies the cash
position by its sign (`.error` models the re-raised wrapped exception;
the `Decimal` constructor itself never fails on the service's own output
strings). -/
def get_cashflow_summary (db : DB) : Except PyErr CashflowSummary :=
  match parseDecimal (get_customer_payments db).total_received,
      parseDecimal (get_supplier_receipts db).total_received with
  | some a, some b =>
    match get_supplier_payments db with
    | .error e => .error e
    | .ok sp =>
      match parseDecimal (get_customer_refunds db).total_refunded,
          parseDecimal sp.total_paid with
      | some c, some d => .ok (mkSummary db sp a b c d)
      | _, _ => .error .invalidOperation
  | _, _ => .error .invalidOperation

/-!  Helper definitions and concrete database states used by the
theorems below.  -/

/-- A purchase row whose notes text raises `JSONDecodeError`. -/
def isMalformedNotes : Option (Except Unit Json) → Bool
  | some (.error _) => true
  | _ => false

/-- The same database with the syntactically malformed purchase notes
rows removed. -/
def dbWithoutMalformedPurchases (db : DB) : DB :=
  { db with purchasesJoined :=
      db.purchasesJoined.filter (fun ts => !isMalformedNotes ts.1.notes) }

/-- Sample customer. -/
def witCustomer : Customer := { id := 7, contact_person := "Ann", business_name := "AnnCo" }

/-- Sample product. -/
def witProduct : Product := { id := 3, product_name := "Widget" }

/-- Sample supplier. -/
def witSupplier : Supplier := { id := 4, contact_person := "Bob", name := "BobCo" }

/-- A cancelled exchange return carrying a positive refund amount. -/
def cancelledRow : ProductReturn × Customer × Product :=
  ({ id := 1, return_number := "R1", customer_id := 7, product_id := 3,
     return_type := "exchange", refund_amount := some ⟨500, 2⟩,
     exchange_price_difference := some ⟨0, 2⟩, status := "Cancelled",
     reason := "size", quantity_returned := 1, return_date := 9,
     original_invoice_id := 11 }, witCustomer, witProduct)

/-- Database holding only `cancelledRow`. -/
def dbCancelled : DB := { returnsJoined := [cancelledRow] }

/-- A processed exchange return carrying a positive refund amount. -/
def refundOkRow : ProductReturn × Customer × Product :=
  ({ id := 2, return_number := "R2", customer_id := 7, product_id := 3,
     return_type := "exchange", refund_amount := some ⟨500, 2⟩,
     exchange_price_difference := some ⟨0, 2⟩, status := "Processed",
     reason := "size", quantity_returned := 1, return_date := 9,
     original_invoice_id := 12 }, witCustomer, witProduct)

/-- Database holding only `refundOkRow`. -/
def dbRefundOk : DB := { returnsJoined := [refundOkRow] }

/-- A cancelled exchange where the customer owes the price difference. -/
def adjCancelledRow : ProductReturn × Customer × Product :=
  ({ id := 5, return_number := "R5", customer_id := 7, product_id := 3,
     return_type := "exchange", refund_amount := some ⟨0, 2⟩,
     exchange_price_difference := some ⟨250, 2⟩, status := "Cancelled",
     reason := "upgrade", quantity_returned := 1, return_date := 4,
     original_invoice_id := 13 }, witCustomer, witProduct)

/-- Database holding only `adjCancelledRow`. -/
def dbAdjCancelled : DB := { returnsJoined := [adjCancelledRow] }

/-- A successful ten-unit customer payment. -/
def payRow : Payment × Customer :=
  ({ id := 21, invoice_id := 31, customer_id := 7, amount_paid := some ⟨1000, 2⟩,
     payment_method := some "cash", payment_date := 1,
     transaction_reference := some "T21", payment_status := "Successful" }, witCustomer)

/-- Database holding only `payRow`. -/
def dbPay : DB := { paymentsJoined := [payRow] }

/-- A successful payment of 0.005 — a sub-cent decimal amount. -/
def subCentRow : Payment × Customer :=
  ({ id := 22, invoice_id := 32, customer_id := 7, amount_paid := some ⟨5, 3⟩,
     payment_method := some "cash", payment_date := 2,
     transaction_reference := some "T22", payment_status := "Successful" }, witCustomer)

/-- Database holding only `subCentRow`. -/
def dbSubCent : DB := { paymentsJoined := [subCentRow] }

/-- Database with an old regular payment and a recent adjustment row. -/
def dbOrder : DB :=
  { paymentsJoined := [payRow]
    returnsJoined :=
      [({ id := 6, return_number := "R6", customer_id := 7, product_id := 3,
          return_type := "exchange", refund_amount := some ⟨0, 2⟩,
          exchange_price_difference := some ⟨250, 2⟩, status := "Completed",
          reason := "upgrade", quantity_returned := 1, return_date := 5,
          original_invoice_id := 14 }, witCustomer, witProduct)] }

/-- A purchase transaction whose notes parse to a JSON array — valid
JSON of the wrong type. -/
def badTypedTx : StockTransaction × Supplier :=
  ({ id := 41, supplier_id := 4, product_id := 3, transaction_type := "Purchase",
     quantity := 2, transaction_date := 8, reference_number := "P41",
     notes := some (.ok (Json.arr [Json.num ⟨1, 0⟩])) }, witSupplier)

/-- Database holding only `badTypedTx`. -/
def dbBadTyped : DB := { purchasesJoined := [badTypedTx] }

/-- A purchase transaction whose notes raise `JSONDecodeError`. -/
def malformedTx : StockTransaction × Supplier :=
  ({ id := 42, supplier_id := 4, product_id := 3, transaction_type := "Purchase",
     quantity := 1, transaction_date := 6, reference_number := "P42",
     notes := some (.error ()) }, witSupplier)

/-- A purchase transaction with a well-formed note holding a payment. -/
def goodTx : StockTransaction × Supplier :=
  ({ id := 43, supplier_id := 4, product_id := 3, transaction_type := "Purchase",
     quantity := 5, transaction_date := 3, reference_number := "P43",
     notes := some (.ok (Json.obj
       [("payment_amount", Json.str "25.50"),
        ("payment_method", Json.str "bank"),
        ("payment_status", Json.str "Paid"),
        ("transaction_reference", Json.str "TX43")])) }, witSupplier)

/-- Database holding a malformed-notes purchase next to a good one. -/
def dbMalformed : DB :=
  { purchasesJoined := [malformedTx, goodTx], products := [witProduct] }

/-- Database whose supplier-returns query raises. -/
def dbBroken : DB := { supplierReturnsQuery := .error () }

/-!  Value semantics of the `Decimal` embedding.  -/

theorem scale_val (m : ℤ) (s s' : ℕ) (h : s ≤ s') :
    ((m * 10 ^ (s' - s) : ℤ) : ℚ) / 10 ^ s' = (m : ℚ) / 10 ^ s := by
  have h10 : (10 : ℚ) ^ s' = 10 ^ (s' - s) * 10 ^ s := by
    rw [← pow_add, Nat.sub_add_cancel h]
  push_cast
  rw [h10]
  have hs : (10 : ℚ) ^ s ≠ 0 := pow_ne_zero _ (by norm_num)
  have hs' : (10 : ℚ) ^ (s' - s) ≠ 0 := pow_ne_zero _ (by norm_num)
  field_simp
  ring

theorem Decimal.val_add (a b : Decimal) : (a.add b).val = a.val + b.val := by
  show ((a.m * 10 ^ (max a.s b.s - a.s) + b.m * 10 ^ (max a.s b.s - b.s) : ℤ) : ℚ)
      / 10 ^ (max a.s b.s) = _
  push_cast
  rw [add_div]
  rw [show ((a.m : ℚ) * 10 ^ (max a.s b.s - a.s)) = (((a.m * 10 ^ (max a.s b.s - a.s) : ℤ)) : ℚ) by push_cast; ring]
  rw [show ((b.m : ℚ) * 10 ^ (max a.s b.s - b.s)) = (((b.m * 10 ^ (max a.s b.s - b.s) : ℤ)) : ℚ) by push_cast; ring]
  rw [scale_val a.m a.s (max a.s b.s) (le_max_left _ _),
    scale_val b.m b.s (max a.s b.s) (le_max_right _ _)]
  rfl

theorem Decimal.val_sub (a b : Decimal) : (a.sub b).val = a.val - b.val := by
  show ((a.m * 10 ^ (max a.s b.s - a.s) - b.m * 10 ^ (max a.s b.s - b.s) : ℤ) : ℚ)
      / 10 ^ (max a.s b.s) = _
  push_cast
  rw [sub_div]
  rw [show ((a.m : ℚ) * 10 ^ (max a.s b.s - a.s)) = (((a.m * 10 ^ (max a.s b.s - a.s) : ℤ)) : ℚ) by push_cast; ring]
  rw [show ((b.m : ℚ) * 10 ^ (max a.s b.s - b.s)) = (((b.m * 10 ^ (max a.s b.s - b.s) : ℤ)) : ℚ) by push_cast; ring]
  rw [scale_val a.m a.s (max a.s b.s) (le_max_left _ _),
    scale_val b.m b.s (max a.s b.s) (le_max_right _ _)]
  rfl

theorem Decimal.val_zero : Decimal.zero.val = 0 := by
  show ((0 : ℤ) : ℚ) / 10 ^ 0 = 0
  norm_num

theorem Decimal.isPos_iff (d : Decimal) : d.isPos = true ↔ 0 < d.val := by
  have hp : (0 : ℚ) < 10 ^ d.s := by positivity
  constructor
  · intro h
    have hm : (0 : ℤ) < d.m := by simpa [Decimal.isPos] using h
    exact div_pos (by exact_mod_cast hm) hp
  · intro h
    have hm : (0 : ℚ) < (d.m : ℚ) := by
      by_contra hc
      push_neg at hc
      have : d.val ≤ 0 := div_nonpos_of_nonpos_of_nonneg hc (le_of_lt hp)
      exact absurd h (not_lt_of_le this)
    simp [Decimal.isPos]
    exact_mod_cast hm

theorem Decimal.isNeg_iff (d : Decimal) : d.isNeg = true ↔ d.val < 0 := by
  have hp : (0 : ℚ) < 10 ^ d.s := by positivity
  constructor
  · intro h
    have hm : d.m < 0 := by simpa [Decimal.isNeg] using h
    exact div_neg_of_neg_of_pos (by exact_mod_cast hm) hp
  · intro h
    have hm : (d.m : ℚ) < 0 := by
      by_contra hc
      push_neg at hc
      have : 0 ≤ d.val := div_nonneg hc (le_of_lt hp)
      exact absurd h (not_lt_of_le this)
    simp [Decimal.isNeg]
    exact_mod_cast hm

theorem Decimal.val_eq_zero_iff (d : Decimal) : d.val = 0 ↔ d.m = 0 := by
  have hs : (10 : ℚ) ^ d.s ≠ 0 := pow_ne_zero _ (by norm_num)
  constructor
  · intro h
    have : (d.m : ℚ) = 0 := by
      have := (div_eq_zero_iff.mp h).resolve_right hs
      exact this
    exact_mod_cast this
  · intro h
    simp [Decimal.val, h]

theorem orZero_val (o : Option Decimal) : (orZero o).val = (o.getD Decimal.zero).val := by
  cases o with
  | none => rfl
  | some d =>
    by_cases h : d.m = 0
    · simp [orZero, h, Decimal.val_zero, Option.getD]
      rw [show d.val = 0 from (Decimal.val_eq_zero_iff d).mpr h]
    · simp [orZero, h, Option.getD]

/-!  Insertion sort: membership, sortedness, and commutation with
filtering.  -/

theorem mem_insertDesc (key : α → ℤ) (x : α) (l : List α) (a : α) :
    a ∈ insertDesc key x l ↔ a = x ∨ a ∈ l := by
  induction l with
  | nil => simp [insertDesc]
  | cons y ys ih =>
    simp only [insertDesc]
    split
    · simp [List.mem_cons]
    · simp only [List.mem_cons, ih]
      tauto

theorem mem_sortDesc (key : α → ℤ) (l : List α) (a : α) :
    a ∈ sortDesc key l ↔ a ∈ l := by
  induction l with
  | nil => simp [sortDesc]
  | cons y ys ih =>
    simp only [sortDesc, mem_insertDesc, List.mem_cons, ih]

theorem pairwise_insertDesc (key : α → ℤ) (x : α) (l : List α)
    (h : l.Pairwise (fun a b => key b ≤ key a)) :
    (insertDesc key x l).Pairwise (fun a b => key b ≤ key a) := by
  induction l with
  | nil => simp [insertDesc]
  | cons y ys ih =>
    rw [List.pairwise_cons] at h
    obtain ⟨hy, hys⟩ := h
    simp only [insertDesc]
    split
    · rename_i hlt
      rw [List.pairwise_cons]
      refine ⟨?_, List.pairwise_cons.mpr ⟨hy, hys⟩⟩
      intro z hz
      rcases List.mem_cons.mp hz with rfl | hz
      · exact le_of_lt hlt
      · exact le_trans (hy z hz) (le_of_lt hlt)
    · rename_i hnlt
      rw [List.pairwise_cons]
      refine ⟨?_, ih hys⟩
      intro z hz
      rcases (mem_insertDesc key x ys z).mp hz with rfl | hz
      · exact not_lt.mp hnlt
      · exact hy z hz

theorem pairwise_sortDesc (key : α → ℤ) (l : List α) :
    (sortDesc key l).Pairwise (fun a b => key b ≤ key a) := by
  induction l with
  | nil => simp [sortDesc]
  | cons y ys ih => exact pairwise_insertDesc key y (sortDesc key ys) ih

theorem insertDesc_of_forall_lt (key : α → ℤ) (x : α) (l : List α)
    (h : ∀ z ∈ l, key z < key x) : insertDesc key x l = x :: l := by
  cases l with
  | nil => rfl
  | cons y ys =>
    simp only [insertDesc, if_pos (h y (List.mem_cons_self y ys))]

theorem filter_insertDesc (p : α → Bool) (key : α → ℤ) (x : α) (l : List α)
    (hl : l.Pairwise (fun a b => key b ≤ key a)) :
    (insertDesc key x l).filter p =
      if p x = true then insertDesc key x (l.filter p) else l.filter p := by
  induction l with
  | nil =>
    simp only [insertDesc, List.filter]
    split <;> simp_all [insertDesc]
  | cons y ys ih =>
    rw [List.pairwise_cons] at hl
    obtain ⟨hy, hys⟩ := hl
    simp only [insertDesc]
    split
    · rename_i hlt
      by_cases hpy : p y = true
      · by_cases hpx : p x = true
        · simp only [List.filter_cons, hpx, hpy, if_pos, if_true]
          rw [insertDesc, if_pos hlt]
        · simp [List.filter_cons, hpx, hpy]
      · by_cases hpx : p x = true
        · simp only [List.filter_cons, hpx, hpy, if_true]
          simp only [Bool.false_eq_true, if_false]
          rw [insertDesc_of_forall_lt]
          intro z hz
          have hzy : key z ≤ key y := hy z (List.mem_of_mem_filter hz)
          exact lt_of_le_of_lt hzy hlt
        · simp [List.filter_cons, hpx, hpy]
    · rename_i hnlt
      by_cases hpy : p y = true
      · by_cases hpx : p x = true
        · simp only [List.filter_cons, hpy, hpx, if_true, ih hys]
          rw [insertDesc, if_neg hnlt]
        · simp [List.filter_cons, hpy, hpx, ih hys]
      · by_cases hpx : p x = true
        · simp [List.filter_cons, hpy, hpx, ih hys]
        · simp [List.filter_cons, hpy, hpx, ih hys]

theorem sortDesc_filter (p : α → Bool) (key : α → ℤ) (l : List α) :
    sortDesc key (l.filter p) = (sortDesc key l).filter p := by
  induction l with
  | nil => rfl
  | cons x xs ih =>
    rw [show sortDesc key (x :: xs) = insertDesc key x (sortDesc key xs) from rfl]
    rw [filter_insertDesc p key x (sortDesc key xs) (pairwise_sortDesc key xs)]
    rw [List.filter_cons]
    by_cases hpx : p x = true
    · simp only [hpx, if_true]
      rw [show sortDesc key (x :: List.filter p xs) = insertDesc key x (sortDesc key (List.filter p xs)) from rfl, ih]
    · simp [hpx, ih]

/-!  The item/total accumulation loops.  -/

theorem foldPair_fst {α β : Type} (mk : α → β) (amt : α → Decimal)
    (rows : List α) (init : List β × Decimal) :
    (rows.foldl (fun acc r => (acc.1 ++ [mk r], acc.2.add (amt r))) init).1
      = init.1 ++ rows.map mk := by
  induction rows generalizing init with
  | nil => simp
  | cons r rs ih =>
    rw [List.foldl_cons, ih]
    simp

theorem foldPair_snd_val {α β : Type} (mk : α → β) (amt : α → Decimal)
    (rows : List α) (init : List β × Decimal) :
    ((rows.foldl (fun acc r => (acc.1 ++ [mk r], acc.2.add (amt r))) init).2).val
      = init.2.val + (rows.map (fun r => (amt r).val)).sum := by
  induction rows generalizing init with
  | nil => simp
  | cons r rs ih =>
    rw [List.foldl_cons, ih]
    simp [Decimal.val_add]
    ring

/-!  Digit rendering and parsing round-trips.  -/

theorem digitChar_toNat (d : ℕ) (h : d < 10) : (digitChar d).toNat - 48 = d := by
  interval_cases d <;> decide

theorem digitChar_isDigit (d : ℕ) (h : d < 10) : (digitChar d).isDigit = true := by
  interval_cases d <;> decide

theorem ne_of_isDigit (ch : Char) (h : ch.isDigit = true) :
    ch ≠ '-' ∧ ch ≠ '+' ∧ ch ≠ '.' := by
  refine ⟨?_, ?_, ?_⟩ <;> (intro heq; rw [heq] at h; exact absurd h (by decide))

theorem natDigitsAux_lt (fuel : ℕ) : ∀ n, ∀ d ∈ natDigitsAux fuel n, d < 10 := by
  induction fuel with
  | zero => intro n d hd; simp [natDigitsAux] at hd
  | succ f ih =>
    intro n d hd
    rw [natDigitsAux] at hd
    by_cases hn : n = 0
    · rw [if_pos hn] at hd; simp at hd
    · rw [if_neg hn] at hd
      rcases List.mem_cons.mp hd with rfl | hd
      · exact Nat.mod_lt _ (by norm_num)
      · exact ih _ d hd

theorem foldl_natDigitsAux (fuel : ℕ) : ∀ n, n ≤ fuel →
    (natDigitsAux fuel n).reverse.foldl (fun a d => a * 10 + d) 0 = n := by
  induction fuel with
  | zero =>
    intro n hn
    interval_cases n
    simp [natDigitsAux]
  | succ f ih =>
    intro n hn
    rw [natDigitsAux]
    by_cases hn2 : n = 0
    · rw [if_pos hn2]
      simp [hn2]
    · rw [if_neg hn2]
      rw [List.reverse_cons, List.foldl_append]
      have hdiv : n / 10 ≤ f := by
        have h1 : n / 10 < n := Nat.div_lt_self (Nat.pos_of_ne_zero hn2) (by norm_num)
        omega
      rw [ih _ hdiv]
      simp only [List.foldl_cons, List.foldl_nil]
      omega

theorem foldl_digits_map (ds : List ℕ) (h : ∀ d ∈ ds, d < 10) :
    ∀ acc : ℕ, (ds.map digitChar).foldl (fun a c => a * 10 + (c.toNat - 48)) acc
      = ds.foldl (fun a d => a * 10 + d) acc := by
  induction ds with
  | nil => intro acc; rfl
  | cons d t ih =>
    intro acc
    simp only [List.map_cons, List.foldl_cons]
    rw [digitChar_toNat d (h d (List.mem_cons_self d t))]
    exact ih (fun x hx => h x (List.mem_cons_of_mem d hx)) _

theorem digitsToNat_natDigits (n : ℕ) : digitsToNat (natDigits n) = n := by
  by_cases h : n = 0
  · subst h; rfl
  · rw [natDigits, if_neg h, digitsToNat]
    rw [foldl_digits_map _ (fun d hd => natDigitsAux_lt n n d (List.mem_reverse.mp hd))]
    exact foldl_natDigitsAux n n (le_refl n)

theorem natDigits_isDigit (n : ℕ) : ∀ ch ∈ natDigits n, ch.isDigit = true := by
  by_cases h : n = 0
  · subst h; intro ch hch; simp [natDigits] at hch; subst hch; decide
  · rw [natDigits, if_neg h]
    intro ch hch
    obtain ⟨d, hd, rfl⟩ := List.mem_map.mp hch
    exact digitChar_isDigit d (natDigitsAux_lt n n d (List.mem_reverse.mp hd))

theorem natDigits_ne_nil (n : ℕ) : natDigits n ≠ [] := by
  by_cases h : n = 0
  · subst h; simp [natDigits]
  · rw [natDigits, if_neg h]
    cases n with
    | zero => exact absurd rfl h
    | succ k =>
      rw [natDigitsAux, if_neg h]
      simp

theorem twoDigitChars_isDigit (r : ℕ) (hr : r < 100) :
    ∀ ch ∈ twoDigitChars r, ch.isDigit = true := by
  intro ch hch
  rcases List.mem_cons.mp hch with rfl | hch
  · exact digitChar_isDigit _ (Nat.div_lt_of_lt_mul (by omega))
  · rcases List.mem_cons.mp hch with rfl | hch
    · exact digitChar_isDigit _ (Nat.mod_lt _ (by norm_num))
    · simp at hch

theorem takeDigits_of_all (l rest : List Char) (hl : ∀ ch ∈ l, ch.isDigit = true)
    (hrest : ∀ ch t, rest = ch :: t → ch.isDigit = false) :
    takeDigits (l ++ rest) = (l, rest) := by
  induction l with
  | nil =>
    cases rest with
    | nil => rfl
    | cons ch t =>
      simp only [List.nil_append, takeDigits]
      rw [if_neg]
      rw [hrest ch t rfl]
      simp
  | cons c l' ih =>
    show takeDigits (c :: (l' ++ rest)) = (c :: l', rest)
    rw [takeDigits, if_pos (hl c (List.mem_cons_self c l'))]
    have h2 := ih (fun ch hch => hl ch (List.mem_cons_of_mem c hch))
    simp only [h2]

theorem digitsToNat_append_two (l : List Char) (r : ℕ) (hr : r < 100) :
    digitsToNat (l ++ twoDigitChars r) = digitsToNat l * 100 + r := by
  rw [digitsToNat, List.foldl_append, twoDigitChars]
  simp only [List.foldl_cons, List.foldl_nil]
  rw [digitChar_toNat _ (Nat.div_lt_of_lt_mul (by omega)),
    digitChar_toNat _ (Nat.mod_lt _ (by norm_num))]
  show (digitsToNat l * 10 + r / 10) * 10 + r % 10 = digitsToNat l * 100 + r
  omega

theorem parseSign_digit (ch : Char) (t : List Char) (h : ch.isDigit = true) :
    parseSign (ch :: t) = (false, ch :: t) := by
  obtain ⟨h1, h2, _⟩ := ne_of_isDigit ch h
  simp [parseSign, h1, h2]

theorem parse_renderCents (c : ℤ) :
    parseDecimalChars (renderCentsChars c) = some ⟨c, 2⟩ := by
  have hq := digitsToNat_natDigits (c.natAbs / 100)
  have hr : c.natAbs % 100 < 100 := Nat.mod_lt _ (by norm_num)
  have htake : takeDigits (natDigits (c.natAbs / 100) ++ '.' :: twoDigitChars (c.natAbs % 100))
      = (natDigits (c.natAbs / 100), '.' :: twoDigitChars (c.natAbs % 100)) := by
    apply takeDigits_of_all
    · exact natDigits_isDigit _
    · intro ch t hch
      cases hch
      decide
  have htake2 : takeDigits (twoDigitChars (c.natAbs % 100))
      = (twoDigitChars (c.natAbs % 100), []) := by
    have h3 := takeDigits_of_all (twoDigitChars (c.natAbs % 100)) []
      (twoDigitChars_isDigit _ hr) (by intro ch t hch; cases hch)
    simpa using h3
  have hunsigned : parseUnsigned (natDigits (c.natAbs / 100) ++ '.' :: twoDigitChars (c.natAbs % 100))
      = some (c.natAbs, 2, []) := by
    rw [parseUnsigned]
    simp only [htake, htake2]
    rw [if_neg]
    · rw [digitsToNat_append_two _ _ hr, hq]
      have h100 : c.natAbs / 100 * 100 + c.natAbs % 100 = c.natAbs := by omega
      rw [h100]
      rfl
    · simp [List.isEmpty_iff, natDigits_ne_nil]
  by_cases hc : c < 0
  · have hrender : renderCentsChars c
        = '-' :: (natDigits (c.natAbs / 100) ++ '.' :: twoDigitChars (c.natAbs % 100)) := by
      rw [renderCentsChars, if_pos hc]
      rfl
    have hsign : parseSign ('-' :: (natDigits (c.natAbs / 100) ++ '.' :: twoDigitChars (c.natAbs % 100)))
        = (true, natDigits (c.natAbs / 100) ++ '.' :: twoDigitChars (c.natAbs % 100)) := by
      simp [parseSign]
    rw [hrender, parseDecimalChars]
    simp only [hsign, hunsigned, parseExpPart]
    rw [if_neg (by norm_num)]
    have habs : -((c.natAbs : ℤ)) = c := by omega
    simp only [if_true]
    rw [habs]
    rfl
  · have hrender : renderCentsChars c
        = natDigits (c.natAbs / 100) ++ '.' :: twoDigitChars (c.natAbs % 100) := by
      rw [renderCentsChars, if_neg hc]
      rfl
    obtain ⟨ch, t, hht⟩ : ∃ ch t, natDigits (c.natAbs / 100) = ch :: t := by
      cases hnd : natDigits (c.natAbs / 100) with
      | nil => exact absurd hnd (natDigits_ne_nil _)
      | cons ch t => exact ⟨ch, t, rfl⟩
    have hchd : ch.isDigit = true := by
      apply natDigits_isDigit (c.natAbs / 100)
      rw [hht]; exact List.mem_cons_self ch t
    have hsign : parseSign (natDigits (c.natAbs / 100) ++ '.' :: twoDigitChars (c.natAbs % 100))
        = (false, natDigits (c.natAbs / 100) ++ '.' :: twoDigitChars (c.natAbs % 100)) := by
      rw [hht, List.cons_append, parseSign_digit ch _ hchd, ← List.cons_append, ← hht]
    rw [hrender, parseDecimalChars]
    simp only [hsign, hunsigned, parseExpPart]
    rw [if_neg (by norm_num)]
    have habs : ((c.natAbs : ℤ)) = c := by omega
    simp only [Bool.false_eq_true, if_false]
    rw [habs]
    rfl

theorem roundCents_cents (c : ℤ) : Decimal.roundCents ⟨c, 2⟩ = c := by
  simp [Decimal.roundCents]

theorem parse_format (d : Decimal) :
    parseDecimal (format_decimal d) = some ⟨d.roundCents, 2⟩ := by
  rw [format_decimal, parseDecimal]
  exact parse_renderCents d.roundCents

/-!  Output shapes of the customer operations.  -/

theorem customerPayments_items (db : DB) :
    (get_customer_payments db).customer_payments
      = (regularRows db).map mkRegularItem ++ (adjRows db).map mkAdjItem := by
  show (customerPaymentsPair db).1 = _
  rw [customerPaymentsPair, foldPair_fst, foldPair_fst]
  simp

theorem customerPayments_total_val (db : DB) :
    (customerPaymentsTotalRaw db).val
      = ((regularRows db).map (fun pc => (regularAmount pc.1).val)).sum
        + ((adjRows db).map (fun t => (adjAmount t.1).val)).sum := by
  rw [customerPaymentsTotalRaw, customerPaymentsPair, foldPair_snd_val, foldPair_snd_val]
  rw [show Decimal.zero.val = 0 from Decimal.val_zero]
  ring

theorem customerRefunds_items (db : DB) :
    (get_customer_refunds db).customer_refunds
      = (customerRefundRows db).map mkRefundItem := by
  show (customerRefundsPair db).1 = _
  rw [customerRefundsPair, foldPair_fst]
  simp

theorem customerRefunds_total_val (db : DB) :
    (customerRefundsTotalRaw db).val
      = ((customerRefundRows db).map (fun t => (refundAmount t.1).val)).sum := by
  rw [customerRefundsTotalRaw, customerRefundsPair, foldPair_snd_val]
  rw [show Decimal.zero.val = 0 from Decimal.val_zero]
  ring

theorem mem_regularRows (db : DB) (pc : Payment × Customer) :
    pc ∈ regularRows db ↔ pc ∈ db.paymentsJoined ∧ paymentFilter pc.1 = true := by
  rw [regularRows, mem_sortDesc, List.mem_filter]

theorem mem_adjRows (db : DB) (t : ProductReturn × Customer × Product) :
    t ∈ adjRows db ↔ t ∈ db.returnsJoined ∧ adjFilter t.1 = true := by
  rw [adjRows, mem_sortDesc, List.mem_filter]

theorem mem_customerRefundRows (db : DB) (t : ProductReturn × Customer × Product) :
    t ∈ customerRefundRows db ↔ t ∈ db.returnsJoined ∧ refundFilter t.1 = true := by
  rw [customerRefundRows, mem_sortDesc, List.mem_filter]

theorem orZero_of_isPos (w : Decimal) (h : w.isPos = true) : orZero (some w) = w := by
  rw [orZero, if_neg]
  intro h0
  rw [Decimal.isPos, h0] at h
  simp at h

/-!  Shape of a successful summary.  -/

theorem summary_shape (db : DB) (s : CashflowSummary)
    (h : get_cashflow_summary db = .ok s) :
    ∃ (a b c d : Decimal) (sp : SupplierPaymentsResult),
      parseDecimal (get_customer_payments db).total_received = some a
      ∧ parseDecimal (get_supplier_receipts db).total_received = some b
      ∧ parseDecimal (get_customer_refunds db).total_refunded = some c
      ∧ get_supplier_payments db = .ok sp
      ∧ parseDecimal sp.total_paid = some d
      ∧ s = mkSummary db sp a b c d := by
  rw [get_cashflow_summary] at h
  cases hpa : parseDecimal (get_customer_payments db).total_received with
  | none => simp only [hpa] at h; exact Except.noConfusion h
  | some a =>
    simp only [hpa] at h
    cases hpb : parseDecimal (get_supplier_receipts db).total_received with
    | none => simp only [hpb] at h; exact Except.noConfusion h
    | some b =>
      simp only [hpb] at h
      cases hsp : get_supplier_payments db with
      | error e => simp only [hsp] at h; exact Except.noConfusion h
      | ok sp =>
        simp only [hsp] at h
        cases hpc : parseDecimal (get_customer_refunds db).total_refunded with
        | none => simp only [hpc] at h; exact Except.noConfusion h
        | some c =>
          simp only [hpc] at h
          cases hpd : parseDecimal sp.total_paid with
          | none => simp only [hpd] at h; exact Except.noConfusion h
          | some d =>
            simp only [hpd, Except.ok.injEq] at h
            exact ⟨a, b, c, d, sp, rfl, rfl, rfl, rfl, hpd, h.symm⟩

/-!  Filter characterisations.  -/

theorem adjFilter_of (r : ProductReturn) (hex : r.return_type = "exchange")
    (w : Decimal) (hw : r.exchange_price_difference = some w) (hwp : w.isPos = true)
    (z : Decimal) (hz : r.refund_amount = some z) (hz0 : z.m = 0) :
    adjFilter r = true := by
  rw [adjFilter, Bool.and_eq_true, Bool.and_eq_true]
  refine ⟨⟨?_, ?_⟩, ?_⟩
  · rw [hex]; rfl
  · rw [hw]; exact hwp
  · rw [hz]
    show z.isZero = true
    rw [Decimal.isZero, hz0]
    rfl

theorem refundFilter_of (r : ProductReturn) (hpos : optPos r.refund_amount = true)
    (hstat : r.status = "Pending" ∨ r.status = "Processed" ∨ r.status = "Completed") :
    refundFilter r = true := by
  rw [refundFilter, Bool.and_eq_true, Bool.or_eq_true, Bool.or_eq_true]
  refine ⟨hpos, ?_⟩
  rcases hstat with h | h | h
  · exact Or.inl (Or.inl (by rw [h]; rfl))
  · exact Or.inl (Or.inr (by rw [h]; rfl))
  · exact Or.inr (by rw [h]; rfl)

/-- C9: the two-decimal display formatter is idempotent — re-formatting
an already formatted string returns the same string. -/
theorem c9_format_idempotent (d : Decimal) :
    formatDecimalStr (format_decimal d) = some (format_decimal d) := by
  rw [formatDecimalStr, parse_format]
  simp only [Option.map_some']
  congr 1
  rw [format_decimal, format_decimal, roundCents_cents]

/-- C9 witness: idempotence evaluated at the concrete value 0.015. -/
theorem c9_witness : formatDecimalStr (format_decimal ⟨15, 3⟩) = some (format_decimal ⟨15, 3⟩) :=
  c9_format_idempotent ⟨15, 3⟩

/-- C4: when the supplier-returns query raises, `get_supplier_receipts`
returns the empty zero-totalled result instead of propagating; the
operation is total (never raises). -/
theorem c4_supplier_receipts_graceful (db : DB) (e : Unit)
    (h : db.supplierReturnsQuery = .error e) :
    get_supplier_receipts db
      = { supplier_receipts := [], total_received := "0.00", count := 0 } := by
  rw [get_supplier_receipts, h]

/-- C4 witness: the graceful-empty result on a database whose
supplier-returns subsystem raises. -/
theorem c4_witness :
    dbBroken.supplierReturnsQuery = Except.error ()
    ∧ get_supplier_receipts dbBroken
        = { supplier_receipts := [], total_received := "0.00", count := 0 } :=
  ⟨rfl, c4_supplier_receipts_graceful dbBroken () rfl⟩

/-- C7: `total_received` accumulates, at full decimal precision before
display rounding, exactly the per-row amounts of the items in the
returned list (regular `amount_paid` values and adjustment
`exchange_price_difference` values), and only the display string is
rounded. -/
theorem c7_total_is_sum (db : DB) :
    (get_customer_payments db).customer_payments
      = (regularRows db).map mkRegularItem ++ (adjRows db).map mkAdjItem
    ∧ (customerPaymentsTotalRaw db).val
      = ((regularRows db).map (fun pc => (regularAmount pc.1).val)).sum
        + ((adjRows db).map (fun t => (adjAmount t.1).val)).sum
    ∧ (get_customer_payments db).total_received
      = format_decimal (customerPaymentsTotalRaw db) :=
  ⟨customerPayments_items db, customerPayments_total_val db, rfl⟩

/-- C7 witness: the sum property evaluated on a one-payment database. -/
theorem c7_witness :
    (get_customer_payments dbPay).customer_payments
      = (regularRows dbPay).map mkRegularItem ++ (adjRows dbPay).map mkAdjItem
    ∧ (customerPaymentsTotalRaw dbPay).val
      = ((regularRows dbPay).map (fun pc => (regularAmount pc.1).val)).sum
        + ((adjRows dbPay).map (fun t => (adjAmount t.1).val)).sum
    ∧ (get_customer_payments dbPay).total_received
      = format_decimal (customerPaymentsTotalRaw dbPay) :=
  c7_total_is_sum dbPay

/-- C6 counterexample: with an old regular payment and a recent
adjustment the merged list is regular-then-adjustment, not ordered by
date descending. -/
theorem c6_counterexample :
    ¬ List.Pairwise (fun a b : CustomerPaymentItem => b.payment_date ≤ a.payment_date)
        ((get_customer_payments dbOrder).customer_payments) := by
  decide

/-- C6 as amended: the returned list is the regular-payment items
followed by the adjustment items, each segment (but not the
concatenation) ordered by date descending. -/
theorem c6_amended_segment_order (db : DB) :
    (get_customer_payments db).customer_payments
      = (regularRows db).map mkRegularItem ++ (adjRows db).map mkAdjItem
    ∧ List.Pairwise (fun a b => b.payment_date ≤ a.payment_date)
        ((regularRows db).map mkRegularItem)
    ∧ List.Pairwise (fun a b => b.payment_date ≤ a.payment_date)
        ((adjRows db).map mkAdjItem) := by
  refine ⟨customerPayments_items db, ?_, ?_⟩
  · rw [List.pairwise_map]
    exact pairwise_sortDesc (fun pc : Payment × Customer => pc.1.payment_date) _
  · rw [List.pairwise_map]
    exact pairwise_sortDesc (fun t : ProductReturn × Customer × Product => t.1.return_date) _

/-- C6 witness: the segment ordering evaluated on the two-row database. -/
theorem c6_witness :
    (get_customer_payments dbOrder).customer_payments
      = (regularRows dbOrder).map mkRegularItem ++ (adjRows dbOrder).map mkAdjItem
    ∧ List.Pairwise (fun a b => b.payment_date ≤ a.payment_date)
        ((regularRows dbOrder).map mkRegularItem)
    ∧ List.Pairwise (fun a b => b.payment_date ≤ a.payment_date)
        ((adjRows dbOrder).map mkAdjItem) :=
  c6_amended_segment_order dbOrder

/-- C10: adjustment rows are selected with no status filter, the emitted
item always carries the literal status `Completed`, and the row's amount
is part of the accumulated total. -/
theorem c10_adjustment_no_status_filter (db : DB)
    (t : ProductReturn × Customer × Product)
    (ht : t ∈ db.returnsJoined) (hex : t.1.return_type = "exchange")
    (w : Decimal) (hw : t.1.exchange_price_difference = some w) (hwp : w.isPos = true)
    (z : Decimal) (hz : t.1.refund_amount = some z) (hz0 : z.m = 0) :
    t ∈ adjRows db
    ∧ mkAdjItem t ∈ (get_customer_payments db).customer_payments
    ∧ (mkAdjItem t).status = "Completed"
    ∧ (mkAdjItem t).payment_type = "adjustment_payment"
    ∧ (customerPaymentsTotalRaw db).val
        = ((regularRows db).map (fun pc => (regularAmount pc.1).val)).sum
          + ((adjRows db).map (fun x => (adjAmount x.1).val)).sum := by
  have hmem : t ∈ adjRows db :=
    (mem_adjRows db t).mpr ⟨ht, adjFilter_of t.1 hex w hw hwp z hz hz0⟩
  refine ⟨hmem, ?_, rfl, rfl, customerPayments_total_val db⟩
  rw [customerPayments_items]
  exact List.mem_append_right _ (List.mem_map.mpr ⟨t, hmem, rfl⟩)

/-- C10 witness: a Cancelled exchange adjustment row still appears, with
emitted status `Completed`. -/
theorem c10_witness :
    adjCancelledRow.1.status = "Cancelled"
    ∧ mkAdjItem adjCancelledRow ∈ (get_customer_payments dbAdjCancelled).customer_payments
    ∧ (mkAdjItem adjCancelledRow).status = "Completed" := by
  have h := c10_adjustment_no_status_filter dbAdjCancelled adjCancelledRow (by decide) rfl
    ⟨250, 2⟩ rfl (by decide) ⟨0, 2⟩ rfl rfl
  exact ⟨rfl, h.2.1, h.2.2.1⟩

/-- C8: the refunds report includes exactly the rows with positive
refund amount and status Pending/Processed/Completed; Cancelled rows are
excluded from the list and the accumulated total ranges over the
included rows only. -/
theorem c8_refund_status_filter (db : DB) :
    (∀ t ∈ customerRefundRows db,
        optPos t.1.refund_amount = true
        ∧ (t.1.status = "Pending" ∨ t.1.status = "Processed" ∨ t.1.status = "Completed"))
    ∧ (∀ t ∈ db.returnsJoined,
        optPos t.1.refund_amount = true →
        (t.1.status = "Pending" ∨ t.1.status = "Processed" ∨ t.1.status = "Completed") →
          mkRefundItem t ∈ (get_customer_refunds db).customer_refunds)
    ∧ (∀ t ∈ db.returnsJoined, t.1.status = "Cancelled" → t ∉ customerRefundRows db)
    ∧ (customerRefundsTotalRaw db).val
        = ((customerRefundRows db).map (fun t => (refundAmount t.1).val)).sum := by
  refine ⟨?_, ?_, ?_, customerRefunds_total_val db⟩
  · intro t ht
    obtain ⟨-, hf⟩ := (mem_customerRefundRows db t).mp ht
    rw [refundFilter, Bool.and_eq_true, Bool.or_eq_true, Bool.or_eq_true] at hf
    refine ⟨hf.1, ?_⟩
    rcases hf.2 with (h | h) | h
    · exact Or.inl (eq_of_beq h)
    · exact Or.inr (Or.inl (eq_of_beq h))
    · exact Or.inr (Or.inr (eq_of_beq h))
  · intro t ht hpos hstat
    rw [customerRefunds_items]
    exact List.mem_map.mpr
      ⟨t, (mem_customerRefundRows db t).mpr ⟨ht, refundFilter_of t.1 hpos hstat⟩, rfl⟩
  · intro t ht hc hmem
    obtain ⟨-, hf⟩ := (mem_customerRefundRows db t).mp hmem
    rw [refundFilter, Bool.and_eq_true] at hf
    have h2 := hf.2
    rw [hc] at h2
    exact absurd h2 (by decide)

/-- C8 witness: a Cancelled return with a positive refund amount is
excluded from the refunds report. -/
theorem c8_witness :
    cancelledRow ∈ dbCancelled.returnsJoined
    ∧ cancelledRow.1.status = "Cancelled"
    ∧ optPos cancelledRow.1.refund_amount = true
    ∧ cancelledRow ∉ customerRefundRows dbCancelled :=
  ⟨by decide, rfl, by decide,
    (c8_refund_status_filter dbCancelled).2.2.1 cancelledRow (by decide) rfl⟩

/-- C1 counterexample: a Cancelled exchange row with a positive refund
amount appears nowhere in the refunds report, contradicting the claim
that every positive-refund exchange row appears there. -/
theorem c1_counterexample :
    cancelledRow ∈ dbCancelled.returnsJoined
    ∧ cancelledRow.1.return_type = "exchange"
    ∧ cancelledRow.1.refund_amount = some ⟨500, 2⟩
    ∧ Decimal.isPos ⟨500, 2⟩ = true
    ∧ ¬ ∃ item ∈ (get_customer_refunds dbCancelled).customer_refunds,
        item.return_id = cancelledRow.1.id := by
  decide

/-- C1 as amended: for an exchange row the two cash directions are
routed exclusively, with the refund direction additionally gated by the
status filter — a `refund_amount = 0`, positive-difference row appears
in payments (tagged `adjustment_payment`, amount formatted from the
difference) and never among the refund rows; a positive-refund row never
feeds the payment adjustments, appears in refunds (tagged
`adjustment_refund`) when its status is Pending/Processed/Completed, and
appears in neither report when its status is Cancelled. -/
theorem c1_amended_exchange_routing (db : DB)
    (t : ProductReturn × Customer × Product)
    (ht : t ∈ db.returnsJoined) (hex : t.1.return_type = "exchange") :
    (∀ w z, t.1.exchange_price_difference = some w → w.isPos = true →
        t.1.refund_amount = some z → z.m = 0 →
          mkAdjItem t ∈ (get_customer_payments db).customer_payments
          ∧ (mkAdjItem t).payment_type = "adjustment_payment"
          ∧ (mkAdjItem t).amount_paid = format_decimal w
          ∧ t ∉ customerRefundRows db)
    ∧ (∀ w, t.1.refund_amount = some w → w.isPos = true →
        t ∉ adjRows db
        ∧ ((t.1.status = "Pending" ∨ t.1.status = "Processed" ∨ t.1.status = "Completed") →
            mkRefundItem t ∈ (get_customer_refunds db).customer_refunds
            ∧ (mkRefundItem t).refund_type = "adjustment_refund")
        ∧ (t.1.status = "Cancelled" → t ∉ customerRefundRows db)) := by
  constructor
  · intro w z hw hwp hz hz0
    have hmem : t ∈ adjRows db :=
      (mem_adjRows db t).mpr ⟨ht, adjFilter_of t.1 hex w hw hwp z hz hz0⟩
    refine ⟨?_, rfl, ?_, ?_⟩
    · rw [customerPayments_items]
      exact List.mem_append_right _ (List.mem_map.mpr ⟨t, hmem, rfl⟩)
    · show format_decimal (adjAmount t.1) = format_decimal w
      rw [adjAmount, hw, orZero_of_isPos w hwp]
    · intro hmem2
      obtain ⟨-, hf⟩ := (mem_customerRefundRows db t).mp hmem2
      rw [refundFilter, Bool.and_eq_true] at hf
      have h1 := hf.1
      rw [hz] at h1
      have h1' : z.isPos = true := h1
      rw [Decimal.isPos, hz0] at h1'
      exact absurd h1' (by decide)
  · intro w hw hwp
    refine ⟨?_, ?_, ?_⟩
    · intro hmem
      obtain ⟨-, hf⟩ := (mem_adjRows db t).mp hmem
      rw [adjFilter, Bool.and_eq_true] at hf
      have h2 := hf.2
      rw [hw] at h2
      have h2' : w.isZero = true := h2
      rw [Decimal.isZero] at h2'
      have hz' : w.m = 0 := by simpa using h2'
      have hp' : (0 : ℤ) < w.m := by
        have := hwp
        rw [Decimal.isPos] at this
        simpa using this
      omega
    · intro hstat
      have hmem : t ∈ customerRefundRows db :=
        (mem_customerRefundRows db t).mpr
          ⟨ht, refundFilter_of t.1 (by rw [hw]; exact hwp) hstat⟩
      constructor
      · rw [customerRefunds_items]
        exact List.mem_map.mpr ⟨t, hmem, rfl⟩
      · show (if t.1.return_type == "exchange" then "adjustment_refund"
            else t.1.return_type) = "adjustment_refund"
        rw [hex]
        decide
    · intro hc hmem2
      obtain ⟨-, hf⟩ := (mem_customerRefundRows db t).mp hmem2
      rw [refundFilter, Bool.and_eq_true] at hf
      have h2 := hf.2
      rw [hc] at h2
      exact absurd h2 (by decide)

/-- C1 witness: a Processed positive-refund exchange row appears in the
refunds report as an adjustment refund and feeds no payment adjustment. -/
theorem c1_witness :
    mkRefundItem refundOkRow ∈ (get_customer_refunds dbRefundOk).customer_refunds
    ∧ (mkRefundItem refundOkRow).refund_type = "adjustment_refund"
    ∧ refundOkRow ∉ adjRows dbRefundOk := by
  have h := (c1_amended_exchange_routing dbRefundOk refundOkRow (by decide) rfl).2
    ⟨500, 2⟩ rfl (by decide)
  exact ⟨(h.2.1 (Or.inr (Or.inl rfl))).1, (h.2.1 (Or.inr (Or.inl rfl))).2, h.1⟩

/-- C2: whenever the summary is produced, the net cash flow is the exact
difference of total inflow (customer-payments total plus
supplier-receipts total) and total outflow (customer-refunds total plus
supplier-payments total), and the cash position is classified by the
sign of that exact difference with the zero boundary mapped to
`Neutral`. -/
theorem c2_summary_net (db : DB) (s : CashflowSummary)
    (h : get_cashflow_summary db = .ok s) :
    ∃ a b c d : Decimal,
      parseDecimal (get_customer_payments db).total_received = some a
      ∧ parseDecimal (get_supplier_receipts db).total_received = some b
      ∧ parseDecimal (get_customer_refunds db).total_refunded = some c
      ∧ (∃ sp, get_supplier_payments db = .ok sp ∧ parseDecimal sp.total_paid = some d)
      ∧ s.net_cashflow = format_decimal ((a.add b).sub (c.add d))
      ∧ ((a.add b).sub (c.add d)).val = (a.val + b.val) - (c.val + d.val)
      ∧ s.cash_inflow.total_inflow = format_decimal (a.add b)
      ∧ s.cash_outflow.total_outflow = format_decimal (c.add d)
      ∧ (0 < ((a.add b).sub (c.add d)).val → s.summary.cash_position = "Positive")
      ∧ (((a.add b).sub (c.add d)).val < 0 → s.summary.cash_position = "Negative")
      ∧ (((a.add b).sub (c.add d)).val = 0 → s.summary.cash_position = "Neutral") := by
  obtain ⟨a, b, c, d, sp, hpa, hpb, hpc, hsp, hpd, hs⟩ := summary_shape db s h
  subst hs
  refine ⟨a, b, c, d, hpa, hpb, hpc, ⟨sp, hsp, hpd⟩, rfl, ?_, rfl, rfl, ?_, ?_, ?_⟩
  · rw [Decimal.val_sub, Decimal.val_add, Decimal.val_add]
  · intro hv
    show (if ((a.add b).sub (c.add d)).isPos then "Positive"
        else if ((a.add b).sub (c.add d)).isNeg then "Negative" else "Neutral") = "Positive"
    rw [if_pos ((Decimal.isPos_iff _).mpr hv)]
  · intro hv
    show (if ((a.add b).sub (c.add d)).isPos then "Positive"
        else if ((a.add b).sub (c.add d)).isNeg then "Negative" else "Neutral") = "Negative"
    have h1 : ¬ (((a.add b).sub (c.add d)).isPos = true) := fun hh =>
      absurd ((Decimal.isPos_iff _).mp hh) (by linarith)
    rw [if_neg h1, if_pos ((Decimal.isNeg_iff _).mpr hv)]
  · intro hv
    show (if ((a.add b).sub (c.add d)).isPos then "Positive"
        else if ((a.add b).sub (c.add d)).isNeg then "Negative" else "Neutral") = "Neutral"
    have hm := (Decimal.val_eq_zero_iff _).mp hv
    have h1 : ¬ (((a.add b).sub (c.add d)).isPos = true) := by
      rw [Decimal.isPos, hm]; decide
    have h2 : ¬ (((a.add b).sub (c.add d)).isNeg = true) := by
      rw [Decimal.isNeg, hm]; decide
    rw [if_neg h1, if_neg h2]

/-- C2 witness: the summary on a one-payment database, with net 10.00
and a `Positive` cash position derived from the exact difference. -/
theorem c2_witness :
    get_cashflow_summary dbPay
        = Except.ok (mkSummary dbPay
            { supplier_payments := [], total_paid := "0", count := 0 }
            ⟨1000, 2⟩ ⟨0, 0⟩ ⟨0, 2⟩ ⟨0, 0⟩)
    ∧ ∃ a b c d : Decimal,
      parseDecimal (get_customer_payments dbPay).total_received = some a
      ∧ parseDecimal (get_supplier_receipts dbPay).total_received = some b
      ∧ parseDecimal (get_customer_refunds dbPay).total_refunded = some c
      ∧ (∃ sp, get_supplier_payments dbPay = .ok sp ∧ parseDecimal sp.total_paid = some d)
      ∧ (mkSummary dbPay { supplier_payments := [], total_paid := "0", count := 0 }
            ⟨1000, 2⟩ ⟨0, 0⟩ ⟨0, 2⟩ ⟨0, 0⟩).net_cashflow
          = format_decimal ((a.add b).sub (c.add d))
      ∧ ((a.add b).sub (c.add d)).val = (a.val + b.val) - (c.val + d.val)
      ∧ (mkSummary dbPay { supplier_payments := [], total_paid := "0", count := 0 }
            ⟨1000, 2⟩ ⟨0, 0⟩ ⟨0, 2⟩ ⟨0, 0⟩).cash_inflow.total_inflow
          = format_decimal (a.add b)
      ∧ (mkSummary dbPay { supplier_payments := [], total_paid := "0", count := 0 }
            ⟨1000, 2⟩ ⟨0, 0⟩ ⟨0, 2⟩ ⟨0, 0⟩).cash_outflow.total_outflow
          = format_decimal (c.add d)
      ∧ (0 < ((a.add b).sub (c.add d)).val →
          (mkSummary dbPay { supplier_payments := [], total_paid := "0", count := 0 }
            ⟨1000, 2⟩ ⟨0, 0⟩ ⟨0, 2⟩ ⟨0, 0⟩).summary.cash_position = "Positive")
      ∧ (((a.add b).sub (c.add d)).val < 0 →
          (mkSummary dbPay { supplier_payments := [], total_paid := "0", count := 0 }
            ⟨1000, 2⟩ ⟨0, 0⟩ ⟨0, 2⟩ ⟨0, 0⟩).summary.cash_position = "Negative")
      ∧ (((a.add b).sub (c.add d)).val = 0 →
          (mkSummary dbPay { supplier_payments := [], total_paid := "0", count := 0 }
            ⟨1000, 2⟩ ⟨0, 0⟩ ⟨0, 2⟩ ⟨0, 0⟩).summary.cash_position = "Neutral") :=
  ⟨rfl, c2_summary_net dbPay _ rfl⟩

/-- C5 counterexample: a customer payment of 0.005 is accumulated
exactly, but the operation returns the two-decimal-rounded string
`0.00`, and the summary's total inflow is computed from that rounded
value — the returned total is not the raw unrounded decimal. -/
theorem c5_counterexample :
    customerPaymentsTotalRaw dbSubCent = ⟨5, 3⟩
    ∧ (Decimal.val ⟨5, 3⟩ : ℚ) = 1 / 200
    ∧ (get_customer_payments dbSubCent).total_received = "0.00"
    ∧ parseDecimal "0.00" = some ⟨0, 2⟩
    ∧ Decimal.val ⟨0, 2⟩ = 0
    ∧ (1 / 200 : ℚ) ≠ 0
    ∧ (get_cashflow_summary dbSubCent).map (fun s => s.cash_inflow.total_inflow)
        = Except.ok "0.00" := by
  refine ⟨rfl, ?_, rfl, rfl, ?_, by norm_num, rfl⟩
  · show (5 : ℚ) / 10 ^ 3 = 1 / 200
    norm_num
  · show ((0 : ℤ) : ℚ) / 10 ^ 2 = 0
    norm_num

/-- C5 as amended: the two supplier operations return their totals as
raw `str(Decimal)` renderings of the exact sums, but the two customer
operations return totals already rounded to two decimals by the display
formatter, and `get_cashflow_summary` sums those already-rounded
customer totals with the supplier totals — rounding happens before the
summary's summation for the customer components. -/
theorem c5_amended_rounding_before_sum (db : DB) :
    (get_customer_payments db).total_received
        = format_decimal (customerPaymentsTotalRaw db)
    ∧ (get_customer_refunds db).total_refunded
        = format_decimal (customerRefundsTotalRaw db)
    ∧ parseDecimal (get_customer_payments db).total_received
        = some ⟨(customerPaymentsTotalRaw db).roundCents, 2⟩
    ∧ parseDecimal (get_customer_refunds db).total_refunded
        = some ⟨(customerRefundsTotalRaw db).roundCents, 2⟩
    ∧ (∀ rows, db.supplierReturnsQuery = .ok rows →
        (get_supplier_receipts db).total_received
          = (supplierReceiptsPair db rows).2.toStr)
    ∧ (∀ acc, supplierPaymentsGo db (purchaseRows db) ([], Decimal.zero) = .ok acc →
        get_supplier_payments db
          = .ok { supplier_payments := acc.1
                  total_paid := acc.2.toStr
                  count := acc.1.length })
    ∧ (∀ s, get_cashflow_summary db = .ok s →
        ∃ b d : Decimal,
          parseDecimal (get_supplier_receipts db).total_received = some b
          ∧ (∃ sp, get_supplier_payments db = .ok sp ∧ parseDecimal sp.total_paid = some d)
          ∧ s.cash_inflow.total_inflow
              = format_decimal ((⟨(customerPaymentsTotalRaw db).roundCents, 2⟩ : Decimal).add b)
          ∧ s.cash_outflow.total_outflow
              = format_decimal ((⟨(customerRefundsTotalRaw db).roundCents, 2⟩ : Decimal).add d)) := by
  refine ⟨rfl, rfl, parse_format _, parse_format _, ?_, ?_, ?_⟩
  · intro rows h
    rw [get_supplier_receipts, h]
    rfl
  · intro acc h
    rw [get_supplier_payments, h]
  · intro s h
    obtain ⟨a, b, c, d, sp, hpa, hpb, hpc, hsp, hpd, hs⟩ := summary_shape db s h
    subst hs
    have ha : a = ⟨(customerPaymentsTotalRaw db).roundCents, 2⟩ := by
      have hp := parse_format (customerPaymentsTotalRaw db)
      rw [show (get_customer_payments db).total_received
          = format_decimal (customerPaymentsTotalRaw db) from rfl, hp] at hpa
      exact (Option.some.inj hpa).symm
    have hc' : c = ⟨(customerRefundsTotalRaw db).roundCents, 2⟩ := by
      have hp := parse_format (customerRefundsTotalRaw db)
      rw [show (get_customer_refunds db).total_refunded
          = format_decimal (customerRefundsTotalRaw db) from rfl, hp] at hpc
      exact (Option.some.inj hpc).symm
    subst ha
    subst hc'
    exact ⟨b, d, hpb, ⟨sp, hsp, hpd⟩, rfl, rfl⟩

/-- C5 witness: on the 0.005-payment database, the returned customer
total is the display-rounded string and parses back to the rounded
value. -/
theorem c5_witness :
    (get_customer_payments dbSubCent).total_received
        = format_decimal (customerPaymentsTotalRaw dbSubCent)
    ∧ parseDecimal (get_customer_payments dbSubCent).total_received
        = some ⟨(customerPaymentsTotalRaw dbSubCent).roundCents, 2⟩ :=
  ⟨(c5_amended_rounding_before_sum dbSubCent).1,
    (c5_amended_rounding_before_sum dbSubCent).2.2.1⟩

/-!  Behaviour of `get_supplier_payments` on malformed notes.  -/

theorem processTx_malformed (db : DB) (ts : StockTransaction × Supplier)
    (h : ts.1.notes = some (.error ())) : processTx db ts = .ok none := by
  rw [processTx, h]
  rfl

theorem processTx_dbW (db : DB) (ts : StockTransaction × Supplier) :
    processTx (dbWithoutMalformedPurchases db) ts = processTx db ts := rfl

theorem spGo_dbW (db : DB) : ∀ (rows : List (StockTransaction × Supplier)) acc,
    supplierPaymentsGo (dbWithoutMalformedPurchases db) rows acc
      = supplierPaymentsGo db rows acc := by
  intro rows
  induction rows with
  | nil => intro acc; rfl
  | cons r rs ih =>
    intro acc
    rw [supplierPaymentsGo, supplierPaymentsGo, processTx_dbW]
    cases hp : processTx db r with
    | error e => rfl
    | ok o =>
      cases o with
      | none => simp only [hp]; exact ih acc
      | some pr => simp only [hp]; exact ih _

theorem spGo_skip (db : DB) : ∀ (rows : List (StockTransaction × Supplier)) acc,
    supplierPaymentsGo db rows acc
      = supplierPaymentsGo db (rows.filter (fun ts => !isMalformedNotes ts.1.notes)) acc := by
  intro rows
  induction rows with
  | nil => intro acc; rfl
  | cons r rs ih =>
    intro acc
    rw [List.filter_cons]
    by_cases hm : isMalformedNotes r.1.notes = true
    · have hnotes : r.1.notes = some (.error ()) := by
        cases hn : r.1.notes with
        | none => rw [hn] at hm; exact Bool.noConfusion hm
        | some ex =>
          cases ex with
          | error u => cases u; rfl
          | ok j => rw [hn] at hm; exact Bool.noConfusion hm
      rw [hm]
      simp only [Bool.not_true, Bool.false_eq_true, if_false]
      rw [supplierPaymentsGo, processTx_malformed db r hnotes]
      exact ih acc
    · have hm' : (!isMalformedNotes r.1.notes) = true := by
        rw [Bool.eq_false_iff.mpr hm]
        rfl
      rw [if_pos hm']
      rw [supplierPaymentsGo, supplierPaymentsGo]
      cases hp : processTx db r with
      | error e => rfl
      | ok o =>
        cases o with
        | none => simp only [hp]; exact ih acc
        | some pr => simp only [hp]; exact ih _

theorem purchaseRows_dbW (db : DB) :
    purchaseRows (dbWithoutMalformedPurchases db)
      = (purchaseRows db).filter (fun ts => !isMalformedNotes ts.1.notes) := by
  rw [purchaseRows, purchaseRows]
  rw [show (dbWithoutMalformedPurchases db).purchasesJoined
      = db.purchasesJoined.filter (fun ts => !isMalformedNotes ts.1.notes) from rfl]
  rw [← sortDesc_filter]
  congr 1
  rw [List.filter_filter, List.filter_filter]
  congr 1
  funext ts
  exact Bool.and_comm _ _

/-- C3 counterexample: a Purchase whose notes parse as a JSON array
(valid JSON of the wrong type) raises an uncaught `AttributeError` at
`payment_info.get`, so the whole operation fails instead of skipping the
row. -/
theorem c3_counterexample :
    badTypedTx.1.transaction_type = "Purchase"
    ∧ badTypedTx ∈ dbBadTyped.purchasesJoined
    ∧ badTypedTx.1.notes = some (.ok (Json.arr [Json.num ⟨1, 0⟩]))
    ∧ get_supplier_payments dbBadTyped = .error PyErr.attributeError := by
  exact ⟨rfl, List.mem_cons_self _ _, rfl, rfl⟩

/-- C3 as amended: a Purchase whose notes raise `JSONDecodeError`
(malformed syntax) is silently treated as having no payment — it yields
no item, contributes nothing, and removing all such rows leaves the
operation's result unchanged, so syntax failures alone never fail the
request; but notes whose parsed values have wrong types raise an
uncaught error that fails the whole operation. -/
theorem c3_amended_malformed_notes_skipped (db : DB) :
    (∀ ts : StockTransaction × Supplier, ts.1.notes = some (.error ()) →
        processTx db ts = .ok none)
    ∧ get_supplier_payments db
        = get_supplier_payments (dbWithoutMalformedPurchases db) := by
  refine ⟨fun ts h => processTx_malformed db ts h, ?_⟩
  rw [get_supplier_payments, get_supplier_payments, purchaseRows_dbW, spGo_dbW,
    ← spGo_skip]

/-- C3 witness: a malformed-notes purchase row is skipped and its
removal leaves the supplier-payments result unchanged. -/
theorem c3_witness :
    processTx dbMalformed malformedTx = .ok none
    ∧ get_supplier_payments dbMalformed
        = get_supplier_payments (dbWithoutMalformedPurchases dbMalformed) :=
  ⟨(c3_amended_malformed_notes_skipped dbMalformed).1 malformedTx rfl,
    (c3_amended_malformed_notes_skipped dbMalformed).2⟩
